import Mathlib

set_option autoImplicit false

/-!
Shallow embedding of `src/weather-poetry/src/weather_cli/cli.py`, a small
weather CLI.  Pure logic (the WMO code table, request-parameter construction,
the two formatters, the header trimming and the driver's control flow) is
translated directly; the two HTTP calls are abstracted by passing their
results (`Option Loc` for geocoding, `WeatherResp` for the forecast) as
arguments.  Numeric payload values (temperatures, wind speeds, rain
probabilities, coordinates) are carried as already-rendered strings, since the
code never computes with them, only interpolates them into output text.
A Python `IndexError` raised while rendering is modelled as `none`.
-/

namespace WeatherCli

/-- Embedding of the static dict `WMO_TEXT` (cli.py lines 8-21), in source
order. -/
def WMO_TEXT : List (Int × String) :=
  [(0, "Clear sky"),
   (1, "Mainly clear"), (2, "Partly cloudy"), (3, "Overcast"),
   (45, "Fog"), (48, "Depositing rime fog"),
   (51, "Light drizzle"), (53, "Moderate drizzle"), (55, "Dense drizzle"),
   (56, "Light freezing drizzle"), (57, "Dense freezing drizzle"),
   (61, "Slight rain"), (63, "Moderate rain"), (65, "Heavy rain"),
   (66, "Light freezing rain"), (67, "Heavy freezing rain"),
   (71, "Slight snow"), (73, "Moderate snow"), (75, "Heavy snow"),
   (77, "Snow grains"),
   (80, "Slight rain showers"), (81, "Moderate rain showers"), (82, "Violent rain showers"),
   (85, "Slight snow showers"), (86, "Heavy snow showers"),
   (95, "Thunderstorm"), (96, "Thunderstorm with slight hail"), (99, "Thunderstorm with heavy hail")]

/-- Embedding of Python dict lookup `WMO_TEXT.get(code)`: the value at the
first (only) matching key, if any. -/
def wmoGet (code : Int) : Option String :=
  (WMO_TEXT.find? (fun p => p.1 == code)).map (fun p => p.2)

/-- Embedding of `WMO_TEXT.get(code, f"WMO {code}")` (cli.py line 74). -/
def wmoDesc (code : Int) : String :=
  (wmoGet code).getD ("WMO " ++ toString code)

/-- Embedding of `u_temp = "°F" if unit == "imperial" else "°C"` (cli.py
lines 82 and 93). -/
def u_temp (unit : String) : String :=
  if unit = "imperial" then "°F" else "°C"

/-- Embedding of `u_wind = "mph" if unit == "imperial" else "km/h"` (cli.py
line 83). -/
def u_wind (unit : String) : String :=
  if unit = "imperial" then "mph" else "km/h"

/-- The query parameters that `fetch_weather` url-encodes into its GET
request (cli.py lines 57-66). -/
structure ForecastRequest where
  latitude : String
  longitude : String
  current_weather : String
  daily : String
  timezone : String
  forecast_days : Int
  temperature_unit : String
  wind_speed_unit : String
deriving DecidableEq, Repr

/-- Embedding of `fetch_weather` (cli.py lines 53-68) up to the point where
the request parameters are fixed: `temp_unit`/`wind_unit` from the unit
string, `tz or "auto"` (a falsy empty string becomes `"auto"`), and
`forecast_days = max(1, min(days, 16))`. -/
def fetch_weather (lat lon : String) (days : Int) (unit : String) (tz : String) : ForecastRequest :=
  { latitude := lat
    longitude := lon
    current_weather := "true"
    daily := "temperature_2m_max,temperature_2m_min,precipitation_probability_max"
    timezone := if tz = "" then "auto" else tz
    forecast_days := max 1 (min days 16)
    temperature_unit := if unit = "imperial" then "fahrenheit" else "celsius"
    wind_speed_unit := if unit = "imperial" then "mph" else "kmh" }

/-- Embedding of Python `str()` applied to a value that may be `None`:
`str(None)` is the text `"None"`. -/
def pyStr (o : Option String) : String := o.getD "None"

/-- Numeric value of a decimal digit character, if it is one. -/
def digitVal (c : Char) : Option Nat :=
  if c.isDigit then some (c.toNat - 48) else none

/-- Two decimal digit characters as a number below 100. -/
def num2 (a b : Char) : Option Nat := do
  let x ← digitVal a
  let y ← digitVal b
  pure (10 * x + y)

/-- Four decimal digit characters as a number below 10000. -/
def num4 (a b c d : Char) : Option Nat := do
  let x ← num2 a b
  let y ← num2 c d
  pure (100 * x + y)

/-- Models the Python standard-library call `datetime.fromisoformat`
(cli.py line 79) restricted to the shapes the forecast service emits: a
plain date `YYYY-MM-DD` (time defaults to 00:00) or a date-time
`YYYY-MM-DD(T or space)HH:MM`, with digit and range checks; every other
string fails to parse.  The result is `(year, month, day, hour, minute)`. -/
def parseIso (s : String) : Option (Nat × Nat × Nat × Nat × Nat) :=
  match s.data with
  | [a, b, c, d, '-', e, f, '-', g, h] => do
      let y ← num4 a b c d
      let mo ← num2 e f
      let dy ← num2 g h
      if 1 ≤ mo ∧ mo ≤ 12 ∧ 1 ≤ dy ∧ dy ≤ 31 then pure (y, mo, dy, 0, 0) else none
  | [a, b, c, d, '-', e, f, '-', g, h, sep, i, j, ':', k, l] =>
      if sep = 'T' ∨ sep = ' ' then do
        let y ← num4 a b c d
        let mo ← num2 e f
        let dy ← num2 g h
        let hh ← num2 i j
        let mm ← num2 k l
        if 1 ≤ mo ∧ mo ≤ 12 ∧ 1 ≤ dy ∧ dy ≤ 31 ∧ hh ≤ 23 ∧ mm ≤ 59 then
          pure (y, mo, dy, hh, mm)
        else none
      else none
  | _ => none

/-- Left zero-padding to width `w`, as `strftime`'s numeric directives do. -/
def zpad (w : Nat) (n : Nat) : String :=
  String.mk (List.replicate (w - (toString n).length) '0') ++ toString n

/-- Embedding of `strftime("%Y-%m-%d %H:%M")` on a parsed timestamp. -/
def fmtYmdHM (y mo d h mi : Nat) : String :=
  zpad 4 y ++ "-" ++ zpad 2 mo ++ "-" ++ zpad 2 d ++ " " ++ zpad 2 h ++ ":" ++ zpad 2 mi

/-- Embedding of the `try`/`except` around the timestamp (cli.py lines
77-81): a missing value makes `fromisoformat` raise, so `when` falls back to
`str(None)`; a present value is reformatted when it parses and is otherwise
passed through unmodified. -/
def obsTime (t : Option String) : String :=
  match t with
  | none => "None"
  | some s =>
    match parseIso s with
    | some (y, mo, d, h, mi) => fmtYmdHM y mo d h mi
    | none => s

/-- The fields of the `current_weather` JSON object that `format_current`
reads; each is optional because the code uses `.get`. -/
structure Current where
  weathercode : Option Int
  temperature : Option String
  windspeed : Option String
  time : Option String
deriving DecidableEq, Repr

/-- Embedding of `format_current` (cli.py lines 70-84).  A falsy argument
(missing or empty dict) is `none` and yields the fixed placeholder. -/
def format_current (current : Option Current) (unit : String) : String :=
  match current with
  | none => "Current: (no data)"
  | some c =>
    let code : Int := c.weathercode.getD (-1)
    let desc := wmoDesc code
    let temp := pyStr c.temperature
    let wind := pyStr c.windspeed
    let when := obsTime c.time
    "Current (" ++ when ++ "): " ++ desc ++ ", " ++ temp ++ u_temp unit
      ++ ", wind " ++ wind ++ " " ++ u_wind unit

/-- The parallel arrays of the `daily` JSON object (cli.py lines 89-92);
a missing key defaults to `[]`, and a per-day rain probability may be null
(`none`). -/
structure Daily where
  time : List String
  temperature_2m_max : List String
  temperature_2m_min : List String
  precipitation_probability_max : List (Option String)
deriving DecidableEq, Repr

/-- Embedding of the guarded rain clause (cli.py line 98):
`f"  (rain prob {pop[i]}%)" if i < len(pop) and pop[i] is not None else ""`.
The guard is exactly `pop.get? i = some (some v)`. -/
def rainClause (pop : List (Option String)) (i : Nat) : String :=
  match pop.get? i with
  | some (some v) => "  (rain prob " ++ v ++ "%)"
  | _ => ""

/-- One per-day line of `format_daily` (cli.py lines 96-99).  The loop bound
keeps `dates[i]` in range, but `tmin[i]` and `tmax[i]` are unguarded: an
out-of-range index raises `IndexError`, modelled by `none`. -/
def dailyLine (d : Daily) (ut : String) (i : Nat) : Option String :=
  match d.time.get? i, d.temperature_2m_min.get? i, d.temperature_2m_max.get? i with
  | some date, some mn, some mx =>
      some ("  " ++ date ++ "  min " ++ mn ++ ut ++ " / max " ++ mx ++ ut
        ++ rainClause d.precipitation_probability_max i)
  | _, _, _ => none

/-- The loop bound `min(days, len(dates))` of cli.py line 95, as an
iteration count (Python's `range` of a negative number is empty). -/
def dailyCount (d : Daily) (days : Int) : Nat :=
  (min days (d.time.length : Int)).toNat

/-- Run the rendering of each index in turn, stopping at the first raised
`IndexError` (`none`), as the Python `for` loop does. -/
def renderAll (f : Nat → Option String) : List Nat → Option (List String)
  | [] => some []
  | i :: is =>
    match f i with
    | none => none
    | some line =>
      match renderAll f is with
      | none => none
      | some rest => some (line :: rest)

/-- The per-day lines `format_daily` appends after the header (cli.py lines
95-99); `none` when some iteration raises `IndexError`. -/
def dailyLines (d : Daily) (unit : String) (days : Int) : Option (List String) :=
  renderAll (dailyLine d (u_temp unit)) (List.range (dailyCount d days))

/-- Embedding of `format_daily` (cli.py lines 86-100): placeholder on a
falsy argument, otherwise the header line joined with the per-day lines. -/
def format_daily (daily : Option Daily) (unit : String) (days : Int) : Option String :=
  match daily with
  | none => some "Forecast: (no data)"
  | some d =>
    (dailyLines d unit days).map (fun ls => String.intercalate "\n" ("Forecast:" :: ls))

/-- Strip a class of characters from both ends of a character list, as
Python `str.strip` does. -/
def stripEnds (p : Char → Bool) (l : List Char) : List Char :=
  ((l.dropWhile p).reverse.dropWhile p).reverse

/-- Embedding of Python `str.strip()` (whitespace from both ends). -/
def pyStripWS (s : String) : String :=
  String.mk (stripEnds (fun ch => ch.isWhitespace) s.data)

/-- Embedding of Python `str.strip(',')` (commas from both ends). -/
def pyStripComma (s : String) : String :=
  String.mk (stripEnds (fun ch => ch == ',') s.data)

/-- Embedding of the header construction (cli.py line 121):
`f"{where['name']}, {where.get('country','')}".strip().strip(',')`.
Because `geocode` (cli.py line 47) always stores the `country` key, possibly
with value `None`, the `.get` default `''` never applies: the f-string
renders the stored value through `str()`, so an absent country appears as
the literal text `None`. -/
def headerStr (name : String) (country : Option String) : String :=
  pyStripComma (pyStripWS (name ++ ", " ++ pyStr country))

/-- The location dict `geocode` returns on success (cli.py lines 45-51);
coordinates are carried as rendered strings. -/
structure Loc where
  name : String
  country : Option String
  lat : String
  lon : String
  tz : String
deriving DecidableEq, Repr

/-- The forecast response body: both substructures optional (cli.py lines
123-124 fetch them with `.get`). -/
structure WeatherResp where
  current_weather : Option Current
  daily : Option Daily
deriving DecidableEq, Repr

/-- Outcome of one `main` run: the returned exit code and the lines written
to standard output and standard error. -/
structure RunResult where
  exitCode : Int
  stdout : List String
  stderr : List String
deriving DecidableEq, Repr

/-- The diagnostic of cli.py line 116, printed to standard error. -/
def notFoundMsg (place : String) : String :=
  "Could not find a place named \x27" ++ place ++ "\x27. Try a more specific name."

/-- Embedding of `main` (cli.py lines 102-125) after argument parsing, with
the geocode result and the forecast response passed in.  An empty geocode
result prints the diagnostic to stderr and returns 2; otherwise the header,
current line and daily block are printed and 0 is returned.  An
`IndexError` escaping `format_daily` aborts the run (`none`): no exit code
is returned by `main` on that path. -/
def mainRun (geo : Option Loc) (data : WeatherResp) (place : String) (days : Int)
    (unit : String) : Option RunResult :=
  match geo with
  | none => some { exitCode := 2, stdout := [], stderr := [notFoundMsg place] }
  | some w =>
    match format_daily data.daily unit days with
    | none => none
    | some fd =>
      some { exitCode := 0
             stdout := [headerStr w.name w.country ++ "  (lat " ++ w.lat ++ ", lon " ++ w.lon ++ ")",
                        format_current data.current_weather unit, fd]
             stderr := [] }


/-- A well-formed three-day daily payload: parallel arrays of equal length,
with the rain probability null on the second day. -/
def exDaily : Daily :=
  { time := ["2025-10-12", "2025-10-13", "2025-10-14"]
    temperature_2m_max := ["18.1", "17.0", "16.2"]
    temperature_2m_min := ["9.4", "8.0", "7.7"]
    precipitation_probability_max := [some "20", none, some "55"] }

/-- A daily payload whose min-temperature array is shorter than its date
array. -/
def badDaily : Daily :=
  { time := ["2025-10-12", "2025-10-13"]
    temperature_2m_max := ["18.1", "17.0"]
    temperature_2m_min := ["9.4"]
    precipitation_probability_max := [some "20", some "30"] }

/-- The lines `dailyLines` renders for `exDaily` over three days. -/
def exLines : List String :=
  ["  2025-10-12  min 9.4°C / max 18.1°C  (rain prob 20%)",
   "  2025-10-13  min 8.0°C / max 17.0°C",
   "  2025-10-14  min 7.7°C / max 16.2°C  (rain prob 55%)"]

/-- A resolved location with a country, as the geocoder returns for
"Berlin". -/
def exLoc : Loc :=
  { name := "Berlin", country := some "Germany", lat := "52.52", lon := "13.41"
    tz := "Europe/Berlin" }

/-- A resolved location whose country the geocoding service omitted: the
stored country value is `None` (cli.py line 47 stores the key regardless). -/
def locNoCountry : Loc :=
  { name := "Berlin", country := none, lat := "52.52", lon := "13.41", tz := "auto" }

/-- A current-conditions record with all fields present. -/
def exCurrent : Current :=
  { weathercode := some 3, temperature := some "14.2", windspeed := some "11.0"
    time := some "2025-10-12T07:30" }

/-- A full forecast response combining the example current conditions and
the example daily payload. -/
def exResp : WeatherResp :=
  { current_weather := some exCurrent, daily := some exDaily }

/-- C1: for every integer `days` (negative, zero, or above 16 included), the
`forecast_days` request parameter built by `fetch_weather` is the clamp of
`days` into the closed range [1,16]: below 1 becomes 1, above 16 becomes 16,
and values already in range pass through. -/
theorem C1_forecast_days_clamped (lat lon unit tz : String) (days : Int) :
    (fetch_weather lat lon days unit tz).forecast_days = max 1 (min days 16)
    ∧ 1 ≤ (fetch_weather lat lon days unit tz).forecast_days
    ∧ (fetch_weather lat lon days unit tz).forecast_days ≤ 16
    ∧ (days < 1 → (fetch_weather lat lon days unit tz).forecast_days = 1)
    ∧ (1 ≤ days → days ≤ 16 → (fetch_weather lat lon days unit tz).forecast_days = days)
    ∧ (16 < days → (fetch_weather lat lon days unit tz).forecast_days = 16) := by
  refine ⟨rfl, ?_, ?_, ?_, ?_, ?_⟩ <;> simp only [fetch_weather] <;> omega

/-- Witness for C1 at concrete day counts below, inside and above range. -/
theorem C1_forecast_days_clamped_witness :
    (fetch_weather "52.52" "13.41" (-5) "metric" "auto").forecast_days = 1
    ∧ (fetch_weather "52.52" "13.41" 20 "metric" "auto").forecast_days = 16
    ∧ (fetch_weather "52.52" "13.41" 3 "metric" "auto").forecast_days = 3 :=
  ⟨(C1_forecast_days_clamped "52.52" "13.41" "metric" "auto" (-5)).2.2.2.1 (by decide),
   (C1_forecast_days_clamped "52.52" "13.41" "metric" "auto" 20).2.2.2.2.2 (by decide),
   (C1_forecast_days_clamped "52.52" "13.41" "metric" "auto" 3).2.2.2.2.1 (by decide) (by decide)⟩

/-- C2: the units requested from the forecast service and the unit suffixes
used by the formatters always agree: metric requests celsius/kmh and prints
°C and km/h, imperial requests fahrenheit/mph and prints °F and mph, and for
every unit string the requested temperature unit and the printed suffix fall
on the same side (never celsius with °F nor fahrenheit with °C). -/
theorem C2_units_agree (lat lon tz : String) (days : Int) :
    ((fetch_weather lat lon days "metric" tz).temperature_unit = "celsius"
      ∧ (fetch_weather lat lon days "metric" tz).wind_speed_unit = "kmh"
      ∧ u_temp "metric" = "°C" ∧ u_wind "metric" = "km/h")
    ∧ ((fetch_weather lat lon days "imperial" tz).temperature_unit = "fahrenheit"
      ∧ (fetch_weather lat lon days "imperial" tz).wind_speed_unit = "mph"
      ∧ u_temp "imperial" = "°F" ∧ u_wind "imperial" = "mph")
    ∧ (∀ unit : String,
        ((fetch_weather lat lon days unit tz).temperature_unit = "celsius"
          ∧ (fetch_weather lat lon days unit tz).wind_speed_unit = "kmh"
          ∧ u_temp unit = "°C" ∧ u_wind unit = "km/h")
        ∨ ((fetch_weather lat lon days unit tz).temperature_unit = "fahrenheit"
          ∧ (fetch_weather lat lon days unit tz).wind_speed_unit = "mph"
          ∧ u_temp unit = "°F" ∧ u_wind unit = "mph")) := by
  refine ⟨⟨by simp [fetch_weather], by simp [fetch_weather], by simp [u_temp], by simp [u_wind]⟩,
          ⟨by simp [fetch_weather], by simp [fetch_weather], by simp [u_temp], by simp [u_wind]⟩,
          ?_⟩
  intro unit
  by_cases h : unit = "imperial"
  · right; simp [fetch_weather, u_temp, u_wind, h]
  · left; simp [fetch_weather, u_temp, u_wind, h]

/-- C8: an absent (missing or empty) current-conditions record renders as the
fixed placeholder line, and an absent daily block renders as its fixed
placeholder line; neither formatter fails on absent input. -/
theorem C8_absent_placeholders :
    (∀ unit : String, format_current none unit = "Current: (no data)")
    ∧ (∀ (unit : String) (days : Int), format_daily none unit days = some "Forecast: (no data)") :=
  ⟨fun _ => rfl, fun _ _ => rfl⟩

/-- In an association list whose keys are distinct, `find?` on a key present
with value `s` returns exactly that pair. -/
theorem find_key_of_mem {l : List (Int × String)} {c : Int} {s : String}
    (hnd : (l.map Prod.fst).Nodup) (hmem : (c, s) ∈ l) :
    l.find? (fun p => p.1 == c) = some (c, s) := by
  induction l with
  | nil => cases hmem
  | cons a t ih =>
    rw [List.map_cons, List.nodup_cons] at hnd
    rcases List.mem_cons.mp hmem with h | h
    · rw [← h]
      exact List.find?_cons_of_pos _ (by simp)
    · have hkey : c ∈ t.map Prod.fst := List.mem_map.mpr ⟨(c, s), h, rfl⟩
      have hne : (a.1 == c) = false := by
        rw [beq_eq_false_iff_ne]
        intro e
        exact hnd.1 (e ▸ hkey)
      rw [List.find?_cons_of_neg _ (by simpa using hne)]
      exact ih hnd.2 h

/-- The keys of the embedded WMO table are pairwise distinct. -/
theorem wmoKeysNodup : (WMO_TEXT.map Prod.fst).Nodup := by decide

/-- C5: looking up a code present in the static table yields its fixed
description, looking up any integer absent from the table yields the
fallback string carrying that exact integer, and in particular code 3
renders as "Overcast" while the absent code 14 renders as "WMO 14"; the
lookup is a total function. -/
theorem C5_wmo_lookup :
    (∀ (c : Int) (s : String), (c, s) ∈ WMO_TEXT → wmoDesc c = s)
    ∧ (∀ c : Int, c ∉ WMO_TEXT.map Prod.fst → wmoDesc c = "WMO " ++ toString c)
    ∧ wmoDesc 3 = "Overcast" ∧ wmoDesc 14 = "WMO 14" := by
  refine ⟨?_, ?_, by decide, by decide⟩
  · intro c s h
    unfold wmoDesc wmoGet
    rw [find_key_of_mem wmoKeysNodup h]
    rfl
  · intro c hc
    have hfind : WMO_TEXT.find? (fun p => p.1 == c) = none := by
      rw [List.find?_eq_none]
      intro p hp hbeq
      exact hc (List.mem_map.mpr ⟨p, hp, by simpa using hbeq⟩)
    unfold wmoDesc wmoGet
    rw [hfind]
    rfl

/-- Witness for C5 at a present key, another present key, and an absent
negative key. -/
theorem C5_wmo_lookup_witness :
    wmoDesc 0 = "Clear sky" ∧ wmoDesc 95 = "Thunderstorm" ∧ wmoDesc (-7) = "WMO -7" :=
  ⟨C5_wmo_lookup.1 0 "Clear sky" (by decide),
   C5_wmo_lookup.1 95 "Thunderstorm" (by decide),
   C5_wmo_lookup.2.1 (-7) (by decide)⟩

/-- A successful rendering produces exactly one line per loop index. -/
theorem renderAll_length {f : Nat → Option String} :
    ∀ {l : List Nat} {ls : List String}, renderAll f l = some ls → ls.length = l.length := by
  intro l
  induction l with
  | nil =>
    intro ls h
    simp only [renderAll, Option.some.injEq] at h
    simp [← h]
  | cons i is ih =>
    intro ls h
    unfold renderAll at h
    cases hf : f i with
    | none => rw [hf] at h; cases h
    | some line =>
      rw [hf] at h
      cases hr : renderAll f is with
      | none => rw [hr] at h; cases h
      | some rest =>
        rw [hr] at h
        simp only [Option.some.injEq] at h
        simp [← h, ih hr]

/-- When no loop index raises, the rendering succeeds. -/
theorem renderAll_isSome {f : Nat → Option String} :
    ∀ {l : List Nat}, (∀ i ∈ l, (f i).isSome) → ∃ ls, renderAll f l = some ls := by
  intro l
  induction l with
  | nil => exact fun _ => ⟨[], rfl⟩
  | cons i is ih =>
    intro h
    obtain ⟨line, hline⟩ := Option.isSome_iff_exists.mp (h i (List.mem_cons_self i is))
    obtain ⟨rest, hrest⟩ := ih (fun j hj => h j (List.mem_cons_of_mem _ hj))
    exact ⟨line :: rest, by simp [renderAll, hline, hrest]⟩

/-- C3: whenever the daily rendering succeeds, it produces exactly
`min(requested days, len(dates))` per-day lines after the header (so never
more); the rain clause is empty for every index at or beyond the length of
the precipitation-probability array, and a non-empty rain clause can arise
only from an in-range, non-null entry of that array — the guarded access
never reads past it. -/
theorem C3_daily_bounds (d : Daily) (unit : String) (days : Int) (ls : List String)
    (h : dailyLines d unit days = some ls) :
    ls.length = (min days ((d.time.length : Int))).toNat
    ∧ ls.length ≤ d.time.length
    ∧ (∀ (pop : List (Option String)) (i : Nat), pop.length ≤ i → rainClause pop i = "")
    ∧ (∀ (pop : List (Option String)) (i : Nat),
        rainClause pop i ≠ "" → i < pop.length ∧ ∃ v, pop.get? i = some (some v)) := by
  unfold dailyLines at h
  have hlen : ls.length = dailyCount d days := by
    simpa using renderAll_length h
  refine ⟨by simpa [dailyCount] using hlen, ?_, ?_, ?_⟩
  · rw [hlen]
    unfold dailyCount
    omega
  · intro pop i hle
    unfold rainClause
    rw [List.get?_eq_none.mpr hle]
  · intro pop i hne
    unfold rainClause at hne
    cases hget : pop.get? i with
    | none => rw [hget] at hne; simp at hne
    | some o =>
      cases o with
      | none => rw [hget] at hne; simp at hne
      | some v =>
        obtain ⟨hlt, -⟩ := List.get?_eq_some.mp hget
        exact ⟨hlt, v, rfl⟩

/-- Witness for C3 on the three-day payload `exDaily`. -/
theorem C3_daily_bounds_witness :
    exLines.length = (min 3 ((exDaily.time.length : Int))).toNat
    ∧ exLines.length ≤ exDaily.time.length :=
  ⟨(C3_daily_bounds exDaily "metric" 3 exLines (by decide)).1,
   (C3_daily_bounds exDaily "metric" 3 exLines (by decide)).2.1⟩

/-- C4 counterexample: with two dates but only one min temperature, the
requested two-day rendering indexes past the min-temperature array and
fails (`IndexError`), so the claim that rendering never indexes past the
shortest of the date/min/max sequences is false on the code. -/
theorem C4_counterexample : format_daily (some badDaily) "metric" 2 = none := by decide

/-- C4 amended: `format_daily` never indexes past the date sequence (the
loop bound) nor past the precipitation sequence (guarded), but it indexes
the min- and max-temperature arrays unguarded at every loop index; rendering
therefore succeeds whenever both arrays are at least
`min(requested days, len(dates))` long, producing exactly that many per-day
lines. -/
theorem C4_daily_min_max_guard (d : Daily) (unit : String) (days : Int)
    (h1 : dailyCount d days ≤ d.temperature_2m_min.length)
    (h2 : dailyCount d days ≤ d.temperature_2m_max.length) :
    ∃ ls, dailyLines d unit days = some ls ∧ ls.length = dailyCount d days := by
  have hall : ∀ i ∈ List.range (dailyCount d days), (dailyLine d (u_temp unit) i).isSome := by
    intro i hi
    have hi' : i < dailyCount d days := List.mem_range.mp hi
    have htime : i < d.time.length := by
      unfold dailyCount at hi'
      omega
    have hmn : i < d.temperature_2m_min.length := by omega
    have hmx : i < d.temperature_2m_max.length := by omega
    unfold dailyLine
    rw [List.get?_eq_get htime, List.get?_eq_get hmn, List.get?_eq_get hmx]
    rfl
  obtain ⟨ls, hls⟩ := renderAll_isSome hall
  exact ⟨ls, hls, by simpa using renderAll_length hls⟩

/-- Witness for C4's amended theorem: the equal-length payload renders. -/
theorem C4_daily_min_max_guard_witness :
    (dailyLines exDaily "metric" 2).isSome = true := by
  obtain ⟨ls, hls, -⟩ := C4_daily_min_max_guard exDaily "metric" 2 (by decide) (by decide)
  rw [hls]
  rfl

/-- C10: for a requested day count at most 0 the display loop renders zero
per-day lines (the daily block is just the bare header) while the request
still asks for one forecast day; and for every day count outside [1,16]
there is a payload on which the number of rendered per-day lines differs
from the requested `forecast_days`. -/
theorem C10_display_request_mismatch :
    (∀ (d : Daily) (unit : String) (days : Int), days ≤ 0 →
      dailyLines d unit days = some []
      ∧ format_daily (some d) unit days = some "Forecast:"
      ∧ (∀ lat lon tz : String, (fetch_weather lat lon days unit tz).forecast_days = 1))
    ∧ (∀ days : Int, days < 1 ∨ 16 < days →
      ∃ (d : Daily) (unit : String) (ls : List String),
        dailyLines d unit days = some ls
        ∧ ((ls.length : Int) ≠ (fetch_weather "0" "0" days unit "auto").forecast_days)) := by
  have hzero : ∀ (d : Daily) (days : Int), days ≤ 0 → dailyCount d days = 0 := by
    intro d days hle
    unfold dailyCount
    omega
  constructor
  · intro d unit days hle
    have h0 := hzero d days hle
    refine ⟨by simp [dailyLines, h0, renderAll], ?_, ?_⟩
    · simp [format_daily, dailyLines, h0, renderAll]
      rfl
    · intro lat lon tz
      simp only [fetch_weather]
      omega
  · intro days _hout
    refine ⟨⟨[], [], [], []⟩, "metric", [], ?_, ?_⟩
    · have hc : dailyCount ⟨[], [], [], []⟩ days = 0 := by
        unfold dailyCount
        simp only [List.length_nil, Nat.cast_zero]
        omega
      simp [dailyLines, hc, renderAll]
    · simp only [fetch_weather, List.length_nil, Nat.cast_zero]
      omega

/-- Witness for C10 at day count -2 on the example payload. -/
theorem C10_display_request_mismatch_witness :
    dailyLines exDaily "metric" (-2) = some []
    ∧ format_daily (some exDaily) "metric" (-2) = some "Forecast:"
    ∧ (fetch_weather "52.52" "13.41" (-2) "metric" "auto").forecast_days = 1 := by
  obtain ⟨h1, h2, h3⟩ := C10_display_request_mismatch.1 exDaily "metric" (-2) (by decide)
  exact ⟨h1, h2, h3 "52.52" "13.41" "auto"⟩

/-- C9: when the observation timestamp parses, `format_current` shows it
reformatted through `strftime("%Y-%m-%d %H:%M")`; when it does not parse,
the raw source value is passed through unmodified instead of failing; and
the rendered line always embeds exactly this computed timestamp text. -/
theorem C9_time_fallback :
    (∀ (t : String) (y mo d h mi : Nat), parseIso t = some (y, mo, d, h, mi) →
        obsTime (some t) = fmtYmdHM y mo d h mi)
    ∧ (∀ t : String, parseIso t = none → obsTime (some t) = t)
    ∧ (∀ (c : Current) (unit : String), ∃ rest,
        format_current (some c) unit = "Current (" ++ obsTime c.time ++ "): " ++ rest) := by
  refine ⟨?_, ?_, ?_⟩
  · intro t y mo d h mi hp
    simp [obsTime, hp]
  · intro t hp
    simp [obsTime, hp]
  · intro c unit
    refine ⟨wmoDesc (c.weathercode.getD (-1)) ++ ", " ++ pyStr c.temperature ++ u_temp unit
      ++ ", wind " ++ pyStr c.windspeed ++ " " ++ u_wind unit, ?_⟩
    unfold format_current
    simp [String.append_assoc]

/-- Witness for C9: a service-shaped timestamp is reformatted, a
non-timestamp string passes through untouched. -/
theorem C9_time_fallback_witness :
    obsTime (some "2025-10-12T07:30") = "2025-10-12 07:30"
    ∧ obsTime (some "not-a-timestamp") = "not-a-timestamp" := by
  constructor
  · have h := C9_time_fallback.1 "2025-10-12T07:30" 2025 10 12 7 30 (by decide)
    rw [h]
    decide
  · exact C9_time_fallback.2.1 "not-a-timestamp" (by decide)

/-- C6: the claimed trimming of an absent country is contradicted by the
code.  `geocode` (cli.py line 47) always stores the `country` key, so when
the service omits the country the stored value is `None`, the `.get`
default `''` never applies, the f-string renders the value as the literal
text "None", and `strip().strip(',')` removes nothing because the header
then ends in a letter: the driver prints "Berlin, None", not the bare name.
With a present country the header is `<name>, <country>` as the claim
says. -/
theorem C6_header_none_bug :
    headerStr "Berlin" none = "Berlin, None"
    ∧ headerStr "Berlin" (some "Germany") = "Berlin, Germany"
    ∧ ((mainRun (some locNoCountry) exResp "Berlin" 3 "metric").getD ⟨1, [], []⟩).stdout.head?
      = some "Berlin, None  (lat 52.52, lon 13.41)" :=
  ⟨by decide, by decide, by decide⟩

/-- C7: when geocoding yields nothing the driver prints a diagnostic that
names the unresolved place to standard error and returns exit code 2 (with
nothing on standard output); every run that reaches successful rendering
returns exit code 0; and every exit code the driver explicitly returns is 0
or 2. -/
theorem C7_exit_codes (place : String) (days : Int) (unit : String) (data : WeatherResp) :
    (∃ pre suf, mainRun none data place days unit
        = some { exitCode := 2, stdout := [], stderr := [pre ++ place ++ suf] })
    ∧ (∀ (w : Loc) (r : RunResult),
        mainRun (some w) data place days unit = some r → r.exitCode = 0)
    ∧ (∀ (geo : Option Loc) (r : RunResult),
        mainRun geo data place days unit = some r → r.exitCode = 0 ∨ r.exitCode = 2) := by
  have hzero : ∀ (w : Loc) (r : RunResult),
      mainRun (some w) data place days unit = some r → r.exitCode = 0 := by
    intro w r hr
    unfold mainRun at hr
    cases hfd : format_daily data.daily unit days with
    | none => rw [hfd] at hr; cases hr
    | some fd =>
      rw [hfd] at hr
      rw [← Option.some.inj hr]
  refine ⟨⟨"Could not find a place named \x27", "\x27. Try a more specific name.", rfl⟩,
    hzero, ?_⟩
  intro geo r hr
  cases geo with
  | none =>
    right
    unfold mainRun at hr
    rw [← Option.some.inj hr]
  | some w => exact Or.inl (hzero w r hr)

/-- Witness for C7: an unresolvable place exits 2 with the diagnostic on
stderr, while the Berlin run exits 0. -/
theorem C7_exit_codes_witness :
    ((mainRun none exResp "Zzzzqqxx123" 3 "metric").getD ⟨0, [], []⟩).exitCode = 2
    ∧ ((mainRun (some exLoc) exResp "Berlin" 3 "metric").getD ⟨1, [], []⟩).exitCode = 0 := by
  constructor
  · obtain ⟨pre, suf, h⟩ := (C7_exit_codes "Zzzzqqxx123" 3 "metric" exResp).1
    rw [h]
    rfl
  · exact (C7_exit_codes "Berlin" 3 "metric" exResp).2.1 exLoc
      ((mainRun (some exLoc) exResp "Berlin" 3 "metric").getD ⟨1, [], []⟩) (by decide)

end WeatherCli
